import Mathlib

/-!
Shallow embedding of the ts2-sim-server interlocking core.

The Go source consists of three files:
* `routes/StandardManager` — the standard routes-manager policy
  (`CanActivate`, `CanDeactivate`);
* `simulation` (clock file) — `Simulation.UnmarshalJSON`, `Start`, `run`,
  `Pause`, and the `TIME_STEP` constant;
* `simulation/track_signals.go` — signal aspects (`MeansProceed`) and the
  `SignalItem` route bookkeeping (`setActiveRoute`,
  `resetNextActiveRoute`, `resetPreviousActiveRoute`,
  `updateSignalState`).

Pointers to track items and routes are embedded as their integer IDs
(IDs are unique per simulation and every pointer comparison in the
source is an ID comparison); the track-item table of a simulation
becomes a total function `Int → TrackItemState`.
-/

namespace TS2

/-- Track item type tags (the `Type()` discriminator of the Go TrackItem
interface); only `TypePoints` is inspected by the routes manager. -/
inductive TrackItemType where
  | typeLine
  | typeInvisibleLink
  | typeEnd
  | typePlatform
  | typeText
  | typePoints
  | typeSignal
  deriving DecidableEq, Repr

/-- Route-relevant state of a single track item, as exposed by the Go
TrackItem interface: `Type()`, `ConflictItem()` (embedded as the ID of
the conflicting item, if any), `ActiveRoute()` (embedded as the ID of
the active route, if any) and `ActiveRoutePreviousItem()` (embedded as
the ID of the neighbour the active route enters from).  The Go code sets
`activeRoute` and `activeRoutePreviousItem` together in
`setActiveRoute(r, previous)` and only reads the latter when the former
is non-nil. -/
structure TrackItemState where
  type : TrackItemType
  conflictItem : Option Int
  activeRoute : Option Int
  activeRoutePreviousItem : Option Int
  deriving DecidableEq, Repr

/-- A simulation's track-item table: resolves an item ID to its state
(the embedding of `sim.TrackItems`). -/
def World : Type := Int → TrackItemState

/-- A position of a route: a track item together with the neighbour it
is entered from, both embedded as IDs (`pos.TrackItem().ID()` and
`pos.PreviousItem().ID()`). -/
structure Position where
  trackItemId : Int
  previousItemId : Int
  deriving DecidableEq, Repr

/-- A route: its ID, the IDs of its begin and end signals, and its
ordered list of positions. -/
structure Route where
  id : Int
  beginSignalId : Int
  endSignalId : Int
  positions : List Position
  deriving DecidableEq, Repr

/-- Boundary test of `CanActivate`'s loop:
`pos.TrackItem().ID() == r.BeginSignalId || pos.TrackItem().ID() == r.EndSignalId`. -/
def isBoundary (r : Route) (pos : Position) : Bool :=
  pos.trackItemId = r.beginSignalId || pos.trackItemId = r.endSignalId

/-- Conflict test of `CanActivate`'s loop:
`pos.TrackItem().ConflictItem() != nil && pos.TrackItem().ConflictItem().ActiveRoute() != nil`. -/
def conflictActive (w : World) (ti : TrackItemState) : Bool :=
  match ti.conflictItem with
  | none => false
  | some cid => (w cid).activeRoute.isSome

/-- Body of `StandardManager.CanActivate`'s `for` loop over
`r.Positions`, with the `flag` variable threaded explicitly.  Each
branch mirrors one statement of the Go loop, in source order:
boundary skip, conflict-item check, no-active-route case (rejecting
when `flag` is set), Points-first check, entry-direction check,
same-route short-circuit, and finally setting `flag`. -/
def canActivateLoop (w : World) (r : Route) : Bool → List Position → Bool
  | _, [] => true
  | flag, pos :: rest =>
    if isBoundary r pos then
      canActivateLoop w r flag rest
    else if conflictActive w (w pos.trackItemId) then
      false
    else
      match (w pos.trackItemId).activeRoute with
      | none =>
        if flag then false else canActivateLoop w r flag rest
      | some arId =>
        if (w pos.trackItemId).type = TrackItemType.typePoints && !flag then
          false
        else if (w pos.trackItemId).activeRoutePreviousItem ≠ some pos.previousItemId then
          false
        else if arId = r.id then
          true
        else
          canActivateLoop w r true rest

/-- Embedding of `StandardManager.CanActivate`: walk the route's
positions with `flag` initially false; if the walk completes, accept. -/
def CanActivate (w : World) (r : Route) : Bool :=
  canActivateLoop w r false r.positions

/-- Embedding of `StandardManager.CanDeactivate`: always true. -/
def CanDeactivate (_w : World) (_r : Route) : Bool :=
  true

/-! Concrete simulations used as counterexamples and witnesses. -/

/-- A signal item holding route 1 as its active route, entered from the
given neighbour. -/
def sigState (prevId : Int) : TrackItemState :=
  ⟨TrackItemType.typeSignal, none, some 1, some prevId⟩

/-- A free line item: no conflict item, no active route. -/
def freeLine : TrackItemState :=
  ⟨TrackItemType.typeLine, none, none, none⟩

/-- World A: route 1 fully active on signals 10, 20 and Points item 11. -/
def w1 : World := fun i =>
  if i = 10 then sigState 9
  else if i = 11 then ⟨TrackItemType.typePoints, none, some 1, some 10⟩
  else if i = 20 then sigState 11
  else freeLine

/-- The route of world A: begin signal 10, Points 11, end signal 20. -/
def r1 : Route := ⟨1, 10, 20, [⟨10, 9⟩, ⟨11, 10⟩, ⟨20, 11⟩]⟩

/-- World B: route 1 fully active on signals 10, 20 and line item 15,
whose conflict item 30 holds active route 2. -/
def w1b : World := fun i =>
  if i = 10 then sigState 9
  else if i = 15 then ⟨TrackItemType.typeLine, some 30, some 1, some 10⟩
  else if i = 20 then sigState 15
  else if i = 30 then ⟨TrackItemType.typeLine, none, some 2, some 31⟩
  else freeLine

/-- The route of world B: begin signal 10, line 15, end signal 20. -/
def r1b : Route := ⟨1, 10, 20, [⟨10, 9⟩, ⟨15, 10⟩, ⟨20, 15⟩]⟩

/-- World C: route 1 fully active on signals 10, 20 and line item 12,
with no conflict items. -/
def w2 : World := fun i =>
  if i = 10 then sigState 9
  else if i = 12 then ⟨TrackItemType.typeLine, none, some 1, some 10⟩
  else if i = 20 then sigState 12
  else freeLine

/-- The route of world C: begin signal 10, line 12, end signal 20. -/
def r2 : Route := ⟨1, 10, 20, [⟨10, 9⟩, ⟨12, 10⟩, ⟨20, 12⟩]⟩

/-- World D: on route 1's walk, line 11 holds route 1 itself (matching
direction) and the later line 12 holds route 2 entered from item 99. -/
def w4 : World := fun i =>
  if i = 10 then sigState 9
  else if i = 11 then ⟨TrackItemType.typeLine, none, some 1, some 10⟩
  else if i = 12 then ⟨TrackItemType.typeLine, none, some 2, some 99⟩
  else if i = 20 then sigState 12
  else freeLine

/-- The route of world D: begin signal 10, lines 11 and 12, end signal 20. -/
def r4 : Route := ⟨1, 10, 20, [⟨10, 9⟩, ⟨11, 10⟩, ⟨12, 11⟩, ⟨20, 12⟩]⟩

/-- World E: free signals 10 and 20; Points item 13 holds active route 2
entered from item 10. -/
def w3 : World := fun i =>
  if i = 10 then ⟨TrackItemType.typeSignal, none, none, none⟩
  else if i = 13 then ⟨TrackItemType.typePoints, none, some 2, some 10⟩
  else if i = 20 then ⟨TrackItemType.typeSignal, none, none, none⟩
  else freeLine

/-- The route of world E: begin signal 10, Points 13, end signal 20. -/
def r3 : Route := ⟨1, 10, 20, [⟨10, 9⟩, ⟨13, 10⟩, ⟨20, 13⟩]⟩

/-- World F: free signals 10 and 20; line item 14 holds active route 2
entered from item 99 while route 1 would enter it from item 10. -/
def w5 : World := fun i =>
  if i = 10 then ⟨TrackItemType.typeSignal, none, none, none⟩
  else if i = 14 then ⟨TrackItemType.typeLine, none, some 2, some 99⟩
  else if i = 20 then ⟨TrackItemType.typeSignal, none, none, none⟩
  else freeLine

/-- The route of world F: begin signal 10, line 14, end signal 20. -/
def r5 : Route := ⟨1, 10, 20, [⟨10, 9⟩, ⟨14, 10⟩, ⟨20, 14⟩]⟩

/-! Signal aspects and the `SignalItem` bookkeeping
(`simulation/track_signals.go`). -/

/-- Action targets for signal actions: `ASAP`, `BeforeThisSignal`,
`BeforeNextSignal`. -/
inductive ActionTarget where
  | asap
  | beforeThisSignal
  | beforeNextSignal
  deriving DecidableEq, Repr

/-- A `SignalAction`: target timing, speed limit and duration.  Go's
float64 speed is embedded as a rational (only its comparison with zero
is ever used); the duration is in nanoseconds. -/
structure SignalAction where
  Target : ActionTarget
  Speed : ℚ
  Duration : Int
  deriving DecidableEq, Repr

/-- A `SignalAspect`: its name and ordered action list.  The purely
visual descriptors of the Go struct (line style, shapes, colors) are
omitted: no function embedded here reads them. -/
structure SignalAspect where
  Name : String
  Actions : List SignalAction
  deriving DecidableEq, Repr

/-- Embedding of `SignalAspect.MeansProceed`: true when there are no
actions; otherwise true when the first action has nonzero speed or is
targeted `BeforeNextSignal`, and false otherwise. -/
def MeansProceed (sa : SignalAspect) : Bool :=
  match sa.Actions with
  | [] => true
  | a :: _ =>
    if a.Speed ≠ 0 then true
    else if a.Target = ActionTarget.beforeNextSignal then true
    else false

/-- Mutable state of a `SignalItem`: the route-activity fields of its
embedded `trackStruct` (`activeRoute`, `activeRoutePreviousItem`) and
the signal's own fields (`previousActiveRoute`, `nextActiveRoute`,
`activeAspect`); route and item pointers are embedded as IDs. -/
structure SignalItem where
  activeRoute : Option Int
  activeRoutePreviousItem : Option Int
  previousActiveRoute : Option Int
  nextActiveRoute : Option Int
  activeAspect : Option SignalAspect
  deriving DecidableEq, Repr

/-- Embedding of `SignalItem.ActiveAspect`: return the current aspect. -/
def ActiveAspect (si : SignalItem) : Option SignalAspect :=
  si.activeAspect

/-- Embedding of `SignalItem.updateSignalState`: the Go function body is
empty (a stub), so the state is returned unchanged. -/
def updateSignalState (si : SignalItem) : SignalItem :=
  si

/-- Modelled from the spec: `trackStruct.setActiveRoute` is code of this
repository not under src/ (only its caller is); per spec §4.1 it sets
the item's ActiveRoute to the given route and ActiveRoutePreviousItem to
the given entry neighbour, and touches nothing else. -/
def trackStruct.setActiveRoute (si : SignalItem) (r : Option Int) (previous : Int) :
    SignalItem :=
  { si with activeRoute := r, activeRoutePreviousItem := some previous }

/-- Embedding of `SignalItem.setActiveRoute`: delegate to the embedded
trackStruct, then update the signal state. -/
def setActiveRoute (si : SignalItem) (r : Option Int) (previous : Int) : SignalItem :=
  updateSignalState (trackStruct.setActiveRoute si r previous)

/-- Embedding of `SignalItem.resetNextActiveRoute`: when the route
argument is non-nil, the stored next active route is non-nil and their
IDs differ, return unchanged; otherwise clear the field and update the
signal state. -/
def resetNextActiveRoute (si : SignalItem) (r : Option Int) : SignalItem :=
  match r, si.nextActiveRoute with
  | some rid, some nid =>
    if nid ≠ rid then si
    else updateSignalState { si with nextActiveRoute := none }
  | _, _ => updateSignalState { si with nextActiveRoute := none }

/-- Embedding of `SignalItem.resetPreviousActiveRoute`: when the route
argument is non-nil, the stored previous active route is non-nil and
their IDs differ, return unchanged; otherwise clear the field and update
the signal state. -/
def resetPreviousActiveRoute (si : SignalItem) (r : Option Int) : SignalItem :=
  match r, si.previousActiveRoute with
  | some rid, some pid =>
    if pid ≠ rid then si
    else updateSignalState { si with previousActiveRoute := none }
  | _, _ => updateSignalState { si with previousActiveRoute := none }

/-- Concrete signal state: previous and next active route both route 2,
no aspect. -/
def exSig : SignalItem := ⟨none, none, some 2, some 2, none⟩

/-! Simulation clock (`Simulation.Start` / `Simulation.run`). -/

/-- TIME_STEP: 500 milliseconds in nanoseconds (Go's `time.Duration`
counts nanoseconds, and `time.Millisecond` is 10^6 of them). -/
def TIME_STEP : Int := 500 * 1000000

/-- One clock tick of `Simulation.run`'s main loop: the embedding of
`sim.Options.CurrentTime = Time(sim.Options.CurrentTime.Add(TIME_STEP))`,
with simulated time as nanoseconds. -/
def tick (t : Int) : Int := t + TIME_STEP

/-- Clock machinery of a `Simulation`: whether the clock ticker, the
stop channel and the event channel exist (are non-nil), with the rest of
the simulation's fields (track items, routes, trains, options including
the current time, ...) abstracted as a type parameter, since `Start`
reads and writes none of them. -/
structure Simulation (α : Type) where
  clockTicker : Bool
  stopChan : Bool
  eventChan : Bool
  model : α

/-- Embedding of `Simulation.Start`: when the clock ticker already
exists do nothing; otherwise create the ticker, the stop channel and the
event channel (the spawned `run` goroutine carries no state of its
own). -/
def Start {α : Type} (s : Simulation α) : Simulation α :=
  if s.clockTicker then s
  else { s with clockTicker := true, stopChan := true, eventChan := true }

/-- Concrete running simulation: all clock machinery present. -/
def exSim : Simulation Nat := ⟨true, true, true, 42⟩

/-! Track-item decoding (`Simulation.UnmarshalJSON`, the loop over
`rawSim.TrackItems`). -/

/-- Numeric value of a decimal digit list, most significant first. -/
def digitsVal (ds : List Char) : Int :=
  ds.foldl (fun acc c => acc * 10 + ((c.toNat : Int) - 48)) 0

/-- Embedding of Go `strconv.Atoi`: an optional single sign followed by
at least one decimal digit and nothing else.  (Go additionally rejects
values overflowing a machine int; no input considered here comes near
that bound.) -/
def Atoi (s : String) : Option Int :=
  match s.toList with
  | [] => none
  | '-' :: rest =>
    if rest ≠ [] ∧ rest.all Char.isDigit then some (-(digitsVal rest)) else none
  | '+' :: rest =>
    if rest ≠ [] ∧ rest.all Char.isDigit then some (digitsVal rest) else none
  | cs =>
    if cs.all Char.isDigit then some (digitsVal cs) else none

/-- Embedding of the Go call `strings.Trim(tiId, quote)`: remove all
leading and trailing double-quote characters. -/
def trimQuotes (s : String) : String :=
  let dq : Char := Char.ofNat 34
  let l := s.toList.dropWhile (fun c => c = dq)
  String.mk ((l.reverse.dropWhile (fun c => c = dq)).reverse)

/-- The type tags of the seven non-Place track-item variants handled by
the decode switch; a tag is the raw JSON value of the item's type field,
double quotes included. -/
def knownItemTags : List String :=
  ["\"LineItem\"", "\"InvisibleLinkItem\"", "\"EndItem\"", "\"PlatformItem\"",
   "\"TextItem\"", "\"PointsItem\"", "\"SignalItem\""]

/-- Embedding of `unmarshalItem` for a known item tag: convert the
trimmed map key to an integer and register the item under that ID,
returning a descriptive error when the conversion fails.  The inner JSON
decode of the item body is taken to succeed (its failure is returned the
same way and is outside the claim).  The accumulator is the list of
registered item IDs, standing for `sim.TrackItems`. -/
def unmarshalItem (acc : List Int) (key : String) : Except String (List Int) :=
  match Atoi (trimQuotes key) with
  | some n => Except.ok (acc ++ [n])
  | none => Except.error ("Unable to convert " ++ key)

/-- Embedding of the track-items loop of `Simulation.UnmarshalJSON`:
each raw entry is a (map key, type tag) pair.  For a known item tag the
Go call site invokes `unmarshalItem(&ti)` and discards its returned
error, so a failing key conversion leaves the simulation unchanged and
the loop silently continues; a `Place` entry is decoded without any key
conversion (its place code, not modelled here, indexes `sim.Places`);
any other tag aborts the whole decode with a descriptive error. -/
def unmarshalTrackItems (acc : List Int) :
    List (String × String) → Except String (List Int)
  | [] => Except.ok acc
  | (key, tag) :: rest =>
    if tag ∈ knownItemTags then
      match unmarshalItem acc key with
      | Except.ok acc1 => unmarshalTrackItems acc1 rest
      | Except.error _ => unmarshalTrackItems acc rest
    else if tag = "\"Place\"" then
      unmarshalTrackItems acc rest
    else
      Except.error ("Unknown TrackItem type: " ++ tag)

/-! Loop lemmas about `canActivateLoop`. -/

/-- On a route fully active on all its positions, the walk accepts as
soon as its first non-boundary position is neither a Points item nor in
conflict: the same-route short-circuit fires there. -/
theorem canActivateLoop_fullyActive (w : World) (r : Route) (ps : List Position)
    (hact : ∀ p ∈ ps, (w p.trackItemId).activeRoute = some r.id ∧
      (w p.trackItemId).activeRoutePreviousItem = some p.previousItemId)
    (hfirst : ∀ p, ps.find? (fun q => !isBoundary r q) = some p →
      (w p.trackItemId).type ≠ TrackItemType.typePoints ∧
      conflictActive w (w p.trackItemId) = false) :
    canActivateLoop w r false ps = true := by
  induction ps with
  | nil => rfl
  | cons p rest ih =>
    by_cases hb : isBoundary r p = true
    · simp only [canActivateLoop, hb, if_true]
      refine ih (fun q hq => hact q (List.mem_cons_of_mem _ hq)) ?_
      intro q hq
      refine hfirst q ?_
      rwa [List.find?_cons_of_neg]
      simp [hb]
    · replace hb : isBoundary r p = false := by
        cases h : isBoundary r p
        · rfl
        · exact absurd h hb
      have hfp := hfirst p (by rw [List.find?_cons_of_pos]; simp [hb])
      obtain ⟨har, hprev⟩ := hact p (List.mem_cons_self p rest)
      simp only [canActivateLoop, hb, har, hprev, hfp.2, Bool.false_eq_true, if_false]
      simp [hfp.1]

/-- If every position before `p` is a boundary position or carries no
active route, and `p` is a non-boundary Points position holding an
active route, the walk rejects. -/
theorem canActivateLoop_firstPoints (w : World) (r : Route) (ps1 : List Position)
    (p : Position) (ps2 : List Position)
    (hpre : ∀ q ∈ ps1, isBoundary r q = true ∨ (w q.trackItemId).activeRoute = none)
    (hpb : isBoundary r p = false)
    (htype : (w p.trackItemId).type = TrackItemType.typePoints)
    (har : ((w p.trackItemId).activeRoute).isSome = true) :
    canActivateLoop w r false (ps1 ++ p :: ps2) = false := by
  induction ps1 with
  | nil =>
    obtain ⟨a, ha⟩ := Option.isSome_iff_exists.mp har
    simp only [List.nil_append, canActivateLoop, hpb, Bool.false_eq_true, if_false, ha]
    cases hconf : conflictActive w (w p.trackItemId)
    · simp [htype]
    · simp
  | cons q rest ih =>
    rcases hpre q (List.mem_cons_self q rest) with hqb | hqa
    · simp only [List.cons_append, canActivateLoop, hqb, if_true]
      exact ih fun q₁ hq₁ => hpre q₁ (List.mem_cons_of_mem _ hq₁)
    · by_cases hqb : isBoundary r q = true
      · simp only [List.cons_append, canActivateLoop, hqb, if_true]
        exact ih fun q₁ hq₁ => hpre q₁ (List.mem_cons_of_mem _ hq₁)
      · replace hqb : isBoundary r q = false := by
          cases h : isBoundary r q
          · rfl
          · exact absurd h hqb
        simp only [List.cons_append, canActivateLoop, hqb, Bool.false_eq_true, if_false, hqa]
        cases hconf : conflictActive w (w q.trackItemId)
        · simpa using ih fun q₁ hq₁ => hpre q₁ (List.mem_cons_of_mem _ hq₁)
        · simp

/-- If no non-boundary position before `p` holds route `r` as its
item's active route, and `p` is a non-boundary position whose item holds
an active route entered from a different neighbour than `p`'s, the walk
rejects from any flag state. -/
theorem canActivateLoop_dirMismatch (w : World) (r : Route) (ps1 : List Position)
    (p : Position) (ps2 : List Position)
    (hnoR : ∀ q ∈ ps1, isBoundary r q = false →
      (w q.trackItemId).activeRoute ≠ some r.id)
    (hpb : isBoundary r p = false)
    (har : ((w p.trackItemId).activeRoute).isSome = true)
    (hdir : (w p.trackItemId).activeRoutePreviousItem ≠ some p.previousItemId) :
    ∀ flag, canActivateLoop w r flag (ps1 ++ p :: ps2) = false := by
  induction ps1 with
  | nil =>
    intro flag
    obtain ⟨a, ha⟩ := Option.isSome_iff_exists.mp har
    simp only [List.nil_append, canActivateLoop, hpb, Bool.false_eq_true, if_false, ha]
    cases hconf : conflictActive w (w p.trackItemId)
    · cases hpts : ((w p.trackItemId).type = TrackItemType.typePoints && !flag)
      · simp [hpts, hdir]
      · simp [hpts]
    · simp
  | cons q rest ih =>
    intro flag
    have ihrest := ih fun q₁ hq₁ => hnoR q₁ (List.mem_cons_of_mem _ hq₁)
    by_cases hqb : isBoundary r q = true
    · simp only [List.cons_append, canActivateLoop, hqb, if_true]
      exact ihrest flag
    · replace hqb : isBoundary r q = false := by
        cases h : isBoundary r q
        · rfl
        · exact absurd h hqb
      simp only [List.cons_append, canActivateLoop, hqb, Bool.false_eq_true, if_false]
      cases hconf : conflictActive w (w q.trackItemId)
      · cases haq : (w q.trackItemId).activeRoute with
        | none =>
          cases flag
          · simpa using ihrest false
          · simp
        | some a =>
          have hne : a ≠ r.id := by
            intro h
            exact hnoR q (List.mem_cons_self q rest) hqb (by rw [haq, h])
          cases hpts : ((w q.trackItemId).type = TrackItemType.typePoints && !flag)
          · by_cases hd : (w q.trackItemId).activeRoutePreviousItem = some q.previousItemId
            · simp [hpts, hne, hd, ihrest true]
            · simp [hpts, hd]
          · simp [hpts]
      · simp

/-! Claim theorems. -/

/-- Claim C1, counterexample: the claim that `CanActivate` accepts every
route that is already fully active on all its positions is false.  In
world A route 1 is fully active but its only non-boundary item is a
Points item, so the Points-first check (which the Go code runs before
the same-route short-circuit) rejects; in world B route 1 is fully
active but its non-boundary item has a conflict item holding an active
route, so the conflict check rejects. -/
theorem C1_counterexample :
    ((∀ p ∈ r1.positions, (w1 p.trackItemId).activeRoute = some r1.id ∧
        (w1 p.trackItemId).activeRoutePreviousItem = some p.previousItemId) ∧
      CanActivate w1 r1 = false) ∧
    ((∀ p ∈ r1b.positions, (w1b p.trackItemId).activeRoute = some r1b.id ∧
        (w1b p.trackItemId).activeRoutePreviousItem = some p.previousItemId) ∧
      CanActivate w1b r1b = false) := by
  decide

/-- Claim C1, amended: for every route `r` fully active on all its
positions (each position's item holds `r` with the position's previous
item recorded), `CanActivate` returns true provided the first
non-boundary position's item is not a Points item and has no conflict
item holding an active route; the walk short-circuits at that first
non-boundary position. -/
theorem C1_reactivation (w : World) (r : Route)
    (hact : ∀ p ∈ r.positions, (w p.trackItemId).activeRoute = some r.id ∧
      (w p.trackItemId).activeRoutePreviousItem = some p.previousItemId)
    (hfirst : ∀ p, r.positions.find? (fun q => !isBoundary r q) = some p →
      (w p.trackItemId).type ≠ TrackItemType.typePoints ∧
      conflictActive w (w p.trackItemId) = false) :
    CanActivate w r = true :=
  canActivateLoop_fullyActive w r r.positions hact hfirst

/-- Claim C1, witness: world C's route 1 is fully active with a Line
item as its first (and only) non-boundary position, and re-activation is
accepted. -/
theorem C1_reactivation_witness : CanActivate w2 r2 = true :=
  C1_reactivation w2 r2 (by decide)
    (fun p hp => by
      have hfind : r2.positions.find? (fun q => !isBoundary r2 q) = some ⟨12, 10⟩ := by
        decide
      rw [hfind] at hp
      have hp12 : p = ⟨12, 10⟩ := (Option.some_inj.mp hp).symm
      subst hp12
      exact ⟨by decide, by decide⟩)

/-- Claim C2: if, among the non-boundary positions of route `r`, the
first one whose item holds an active route is a Points item holding an
active route different from `r`, then `CanActivate` returns false. -/
theorem C2_firstPointsRejected (w : World) (r : Route) (ps1 : List Position)
    (p : Position) (ps2 : List Position)
    (hsplit : r.positions = ps1 ++ p :: ps2)
    (hpre : ∀ q ∈ ps1, isBoundary r q = true ∨ (w q.trackItemId).activeRoute = none)
    (hpb : isBoundary r p = false)
    (htype : (w p.trackItemId).type = TrackItemType.typePoints)
    (har : ∃ a, (w p.trackItemId).activeRoute = some a ∧ a ≠ r.id) :
    CanActivate w r = false := by
  obtain ⟨a, ha, _⟩ := har
  unfold CanActivate
  rw [hsplit]
  exact canActivateLoop_firstPoints w r ps1 p ps2 hpre hpb htype (by rw [ha]; rfl)

/-- Claim C2, witness: in world E, route 1's first occupied non-boundary
position is the Points item 13 holding route 2, and activation is
rejected. -/
theorem C2_firstPointsRejected_witness : CanActivate w3 r3 = false :=
  C2_firstPointsRejected w3 r3 [⟨10, 9⟩] ⟨13, 10⟩ [⟨20, 13⟩] (by decide) (by decide)
    (by decide) (by decide) ⟨2, by decide, by decide⟩

/-- Claim C3, counterexample: the claim that any direction mismatch at a
non-boundary position forces rejection is false.  In world D, position
⟨12, 11⟩ of route 1 holds active route 2 entered from item 99 ≠ 11, yet
`CanActivate` returns true: the earlier position ⟨11, 10⟩ holds route 1
itself with matching direction, so the same-route short-circuit accepts
before the mismatching position is ever examined. -/
theorem C3_counterexample :
    isBoundary r4 ⟨12, 11⟩ = false ∧ (⟨12, 11⟩ : Position) ∈ r4.positions ∧
    (w4 12).activeRoute = some 2 ∧
    (w4 12).activeRoutePreviousItem ≠ some (11 : Int) ∧
    CanActivate w4 r4 = true := by
  decide

/-- Claim C3, amended: for every route `r` and non-boundary position `p`
of `r` whose item holds an active route entered from a different
neighbour than `p`'s previous item, `CanActivate` returns false,
provided no non-boundary position before `p` on the walk holds `r`
itself as its item's active route. -/
theorem C3_directionConflict (w : World) (r : Route) (ps1 : List Position)
    (p : Position) (ps2 : List Position)
    (hsplit : r.positions = ps1 ++ p :: ps2)
    (hnoR : ∀ q ∈ ps1, isBoundary r q = false →
      (w q.trackItemId).activeRoute ≠ some r.id)
    (hpb : isBoundary r p = false)
    (har : ((w p.trackItemId).activeRoute).isSome = true)
    (hdir : (w p.trackItemId).activeRoutePreviousItem ≠ some p.previousItemId) :
    CanActivate w r = false := by
  unfold CanActivate
  rw [hsplit]
  exact canActivateLoop_dirMismatch w r ps1 p ps2 hnoR hpb har hdir false

/-- Claim C3, witness: in world F, route 1's non-boundary position
⟨14, 10⟩ holds route 2 entered from item 99, no earlier position holds
route 1, and activation is rejected. -/
theorem C3_directionConflict_witness : CanActivate w5 r5 = false :=
  C3_directionConflict w5 r5 [⟨10, 9⟩] ⟨14, 10⟩ [⟨20, 14⟩] (by decide) (by decide)
    (by decide) (by decide) (by decide)

/-- Claim C8: `StandardManager.CanDeactivate` returns true for every
route in every simulation state: deactivation admissibility is
unconditional under the standard policy. -/
theorem C8_deactivateAlways (w : World) (r : Route) : CanDeactivate w r = true :=
  rfl

/-- Claim C4, code evaluation: an unknown item type tag does abort the
decode with a descriptive error, and `unmarshalItem` does build a
descriptive error for a non-numeric map key — but the call sites of
`unmarshalItem` discard its returned error, so decoding an entry with a
known tag and the non-numeric key "abc" succeeds with the item silently
dropped, contradicting the claim that such structural errors are never
swallowed. -/
theorem C4_badKeySwallowed :
    unmarshalTrackItems [] [("1", "\"FooItem\"")] =
      Except.error ("Unknown TrackItem type: " ++ "\"FooItem\"") ∧
    unmarshalItem [] "abc" = Except.error ("Unable to convert " ++ "abc") ∧
    unmarshalTrackItems [] [("abc", "\"LineItem\"")] = Except.ok [] := by
  refine ⟨?_, ?_, ?_⟩ <;> rfl

/-- Claim C5: an aspect means proceed iff its action list is empty, or
its first action has nonzero speed, or its first action's target is
BeforeNextSignal — so an empty list gives proceed, a first action with
zero speed targeted BeforeThisSignal (or ASAP) gives stop, and a first
action targeted BeforeNextSignal gives proceed regardless of speed. -/
theorem C5_meansProceed (sa : SignalAspect) :
    MeansProceed sa = true ↔
      sa.Actions = [] ∨
        ∃ a rest, sa.Actions = a :: rest ∧
          (a.Speed ≠ 0 ∨ a.Target = ActionTarget.beforeNextSignal) := by
  cases h : sa.Actions with
  | nil => simp [MeansProceed, h]
  | cons a rest =>
    by_cases hs : a.Speed ≠ 0
    · simp [MeansProceed, h, hs]
    · by_cases ht : a.Target = ActionTarget.beforeNextSignal
      · simp [MeansProceed, h, hs, ht]
      · simp [MeansProceed, h, hs, ht]

/-- Claim C6: each clock tick advances the current time by exactly
TIME_STEP = 500 ms of simulated time, so after n ticks from start time
t0 the current time is t0 + n · TIME_STEP; every value the current time
ever holds along the run loop is an exact multiple of the step past the
start time. -/
theorem C6_clockStep (t0 : Int) (n : Nat) :
    tick^[n] t0 = t0 + n * TIME_STEP := by
  induction n with
  | zero => simp
  | succ k ih =>
    rw [Function.iterate_succ_apply', ih]
    unfold tick
    push_cast
    ring

/-- Claim C7: for a non-nil route argument, resetting the next
(respectively previous) active route of a signal is a no-op leaving the
state unchanged when the stored route has a different ID, and clears the
field to nil when the stored route matches; mismatched resets are
absorbed, never propagated as failures. -/
theorem C7_resetDefensive (si : SignalItem) (rid q : Int) :
    (si.nextActiveRoute = some q → q ≠ rid →
      resetNextActiveRoute si (some rid) = si) ∧
    (si.nextActiveRoute = some rid →
      (resetNextActiveRoute si (some rid)).nextActiveRoute = none) ∧
    (si.previousActiveRoute = some q → q ≠ rid →
      resetPreviousActiveRoute si (some rid) = si) ∧
    (si.previousActiveRoute = some rid →
      (resetPreviousActiveRoute si (some rid)).previousActiveRoute = none) := by
  refine ⟨?_, ?_, ?_, ?_⟩
  · intro h hne
    simp [resetNextActiveRoute, h, hne]
  · intro h
    simp [resetNextActiveRoute, h, updateSignalState]
  · intro h hne
    simp [resetPreviousActiveRoute, h, hne]
  · intro h
    simp [resetPreviousActiveRoute, h, updateSignalState]

/-- Claim C7, witness: on a signal holding route 2 in both fields,
resetting with route 3 changes nothing and resetting with route 2 clears
the field, for both the next and the previous active route. -/
theorem C7_resetDefensive_witness :
    resetNextActiveRoute exSig (some 3) = exSig ∧
    (resetNextActiveRoute exSig (some 2)).nextActiveRoute = none ∧
    resetPreviousActiveRoute exSig (some 3) = exSig ∧
    (resetPreviousActiveRoute exSig (some 2)).previousActiveRoute = none :=
  ⟨(C7_resetDefensive exSig 3 2).1 rfl (by decide),
   (C7_resetDefensive exSig 2 2).2.1 rfl,
   (C7_resetDefensive exSig 3 2).2.2.1 rfl (by decide),
   (C7_resetDefensive exSig 2 2).2.2.2 rfl⟩

/-- Claim C9: `Simulation.Start` is idempotent: when the clock ticker
already exists it is a no-op leaving the whole simulation state (ticker,
stop channel, event channel and all model state) unchanged; only on a
stopped simulation does it create the ticker and the two channels. -/
theorem C9_startIdempotent {α : Type} (s : Simulation α) :
    (s.clockTicker = true → Start s = s) ∧
    (s.clockTicker = false →
      Start s =
        { s with clockTicker := true, stopChan := true, eventChan := true }) := by
  constructor
  · intro h
    simp [Start, h]
  · intro h
    simp [Start, h]

/-- Claim C9, witness: starting the already-running simulation `exSim`
leaves it unchanged. -/
theorem C9_startIdempotent_witness : Start exSim = exSim :=
  (C9_startIdempotent exSim).1 rfl

/-- Claim C10: `setActiveRoute`, `resetNextActiveRoute` and
`resetPreviousActiveRoute` never change the signal's active aspect,
because `updateSignalState` is an empty stub: `ActiveAspect` returns the
same value before and after each of these mutations, for every signal
state, route argument and previous item. -/
theorem C10_aspectFrame (si : SignalItem) (r : Option Int) (previous : Int) :
    ActiveAspect (setActiveRoute si r previous) = ActiveAspect si ∧
    ActiveAspect (resetNextActiveRoute si r) = ActiveAspect si ∧
    ActiveAspect (resetPreviousActiveRoute si r) = ActiveAspect si := by
  refine ⟨rfl, ?_, ?_⟩
  · unfold resetNextActiveRoute
    cases r with
    | none => rfl
    | some rid =>
      cases hn : si.nextActiveRoute with
      | none => rfl
      | some nid =>
        by_cases h : nid ≠ rid
        · simp [h]
        · simp [h, updateSignalState, ActiveAspect]
  · unfold resetPreviousActiveRoute
    cases r with
    | none => rfl
    | some rid =>
      cases hp : si.previousActiveRoute with
      | none => rfl
      | some pid =>
        by_cases h : pid ≠ rid
        · simp [h]
        · simp [h, updateSignalState, ActiveAspect]

end TS2
